import Mathlib

/-
Verification of the session/container orchestration core of opencode-ui.

Shallow embedding of:
  - app/core/workspace_service.py  (WorkspaceService: sandboxed file access)
  - app/core/session_ops.py        (session container updates)
  - app/core/session_cleanup_worker.py (idle reaper, recovery manager)
  - app/core/docker_ops.py         (container cleanup)

Paths are modelled as lists of segments, the filesystem as an association
list from resolved paths to byte contents plus a set of directories, and
every workspace operation additionally returns the trace of filesystem
calls it performed.  Times are abstract naturals; wall-clock mtime fields
of results are abstracted away.
-/

namespace Opencode

/-! ## Errors (spec taxonomy section 7, mapped from the Python exceptions) -/

inductive WsError where
  | validationError
  | notFound
  | other
deriving DecidableEq

deriving instance DecidableEq for Except

/-! ## Path model

`WorkspaceService._resolve_path` (workspace_service.py lines 54-81) works on
POSIX paths via `pathlib`.  We model a path string by its list of characters
and a resolved absolute path by its list of segments.  `parseSegs` mirrors
`PurePosixPath` parsing (empty and dot components dropped, dot-dot kept),
`joinSegs` mirrors `Path.__truediv__` (an absolute right operand replaces the
base), and `normalizeSegs` mirrors the lexical part of `Path.resolve`
(dot-dot pops one segment, never above the root).  Symlinks are not modelled.
-/

def splitOnSlash : List Char → List (List Char)
  | [] => [[]]
  | c :: rest =>
    if c == '/' then [] :: splitOnSlash rest
    else
      match splitOnSlash rest with
      | seg :: segs => (c :: seg) :: segs
      | [] => [[c]]

def parseSegs (s : String) : List String :=
  ((splitOnSlash s.data).map String.mk).filter (fun t => !(t == "") && !(t == "."))

def isAbsStr (s : String) : Bool :=
  match s.data with
  | c :: _ => c == '/'
  | [] => false

/-- Python `relative_path[1:]` applied when `relative_path.startswith('/')`. -/
def stripLeadingSlash (s : String) : String :=
  match s.data with
  | c :: rest => if c == '/' then String.mk rest else s
  | [] => s

def joinSegs (base : List String) (s : String) : List String :=
  if isAbsStr s then parseSegs s else base ++ parseSegs s

def normalizeSegs (segs : List String) : List String :=
  segs.foldl (fun acc seg => if seg == ".." then acc.dropLast else acc ++ [seg]) []

/-- `WorkspaceService.workspace_path`: `VOLUME_BASE_PATH / session_id / "workspace"`
with the default `VOLUME_BASE_PATH = "/mnt/volume"`. -/
def workspacePath (sessionId : String) : List String :=
  ["mnt", "volume", sessionId, "workspace"]

/-- `WorkspaceService._resolve_path` (workspace_service.py lines 54-81):
strip one leading slash, join onto the workspace root, canonicalize, and
require the result to still lie under the root (`Path.relative_to`). -/
def resolvePath (workspace : List String) (relativePath : String) : Except WsError (List String) :=
  let rel := stripLeadingSlash relativePath
  let resolved := normalizeSegs (joinSegs workspace rel)
  if workspace.isPrefixOf resolved then Except.ok resolved
  else Except.error WsError.validationError

/-- Resolution as claim C10 words it: strip one leading slash and treat the
remainder as relative to the workspace root (compared against `resolvePath`,
which follows `pathlib` join semantics instead). -/
def claimResolveC10 (workspace : List String) (relativePath : String) : Except WsError (List String) :=
  let rel := stripLeadingSlash relativePath
  let resolved := normalizeSegs (workspace ++ parseSegs rel)
  if workspace.isPrefixOf resolved then Except.ok resolved
  else Except.error WsError.validationError

/-! ## Filesystem model and operation traces -/

inductive FsOp where
  | mkdirp (p : List String)
  | statp (p : List String)
  | readdir (p : List String)
  | readBytes (p : List String)
  | writeBytes (p : List String)
deriving DecidableEq

structure FS where
  files : List (List String × List Nat)
  dirs : List (List String)
deriving DecidableEq

def FS.lookupFile (fs : FS) (p : List String) : Option (List Nat) :=
  fs.files.lookup p

def FS.isDir (fs : FS) (p : List String) : Bool :=
  fs.dirs.contains p

def FS.setFile (fs : FS) (p : List String) (bs : List Nat) : FS :=
  { fs with files := (p, bs) :: fs.files.filter (fun e => !(e.fst == p)) }

def FS.addDir (fs : FS) (p : List String) : FS :=
  if fs.dirs.contains p then fs else { fs with dirs := p :: fs.dirs }

def FS0 : FS := { files := [], dirs := [] }

/-- `WorkspaceService.ensure_workspace_exists` (lines 36-48):
`workspace_path.mkdir(parents=True, exist_ok=True)` — one filesystem call. -/
def ensureWorkspaceExists (ws : List String) (fs : FS) : FS × List FsOp :=
  (fs.addDir ws, [FsOp.mkdirp ws])

/-! ## UTF-8 codec (Python `str.encode('utf-8')` / `bytes.decode('utf-8')`) -/

def utf8EncodeChar (c : Nat) : List Nat :=
  if c < 128 then [c]
  else if c < 2048 then [192 + c / 64, 128 + c % 64]
  else if c < 65536 then [224 + c / 4096, 128 + (c / 64) % 64, 128 + c % 64]
  else [240 + c / 262144, 128 + (c / 4096) % 64, 128 + (c / 64) % 64, 128 + c % 64]

def utf8Encode : List Char → List Nat
  | [] => []
  | c :: cs => utf8EncodeChar c.toNat ++ utf8Encode cs

/-- UTF-8 decoding as a byte automaton: the state is `none` between scalar
values and `some (pending, acc, minCp)` inside a multi-byte sequence
(`pending` continuation bytes still expected, `acc` the accumulated code
point, `minCp` the smallest code point the sequence length may encode).
Equivalent to CPython's strict utf-8 codec: rejects stray continuation
bytes, truncated sequences, overlong encodings, surrogates, and code points
above 1114111. -/
def utf8DecodeAux : Option (Nat × Nat × Nat) → List Nat → Option (List Char)
  | none, [] => some []
  | none, b :: rest =>
      if b < 128 then (utf8DecodeAux none rest).map (fun cs => Char.ofNat b :: cs)
      else if b < 194 then none
      else if b < 224 then utf8DecodeAux (some (1, b - 192, 128)) rest
      else if b < 240 then utf8DecodeAux (some (2, b - 224, 2048)) rest
      else if b < 245 then utf8DecodeAux (some (3, b - 240, 65536)) rest
      else none
  | some _, [] => none
  | some st, b :: rest =>
      if 128 ≤ b ∧ b < 192 then
        let acc2 := st.snd.fst * 64 + (b - 128)
        if st.fst ≤ 1 then
          if st.snd.snd ≤ acc2 ∧ ¬(55296 ≤ acc2 ∧ acc2 < 57344) ∧ acc2 < 1114112 then
            (utf8DecodeAux none rest).map (fun cs => Char.ofNat acc2 :: cs)
          else none
        else utf8DecodeAux (some (st.fst - 1, acc2, st.snd.snd)) rest
      else none

def utf8Decode (l : List Nat) : Option (List Char) := utf8DecodeAux none l

/-! ## Base64 (Python `base64.b64encode` / `b64decode`) -/

def b64Table : List Char :=
  "ABCDEFGHIJKLMNOPQRSTUVWXYZabcdefghijklmnopqrstuvwxyz0123456789+/".data

def b64Char (n : Nat) : Char := b64Table.getD n 'A'

def base64Encode : List Nat → List Char
  | [] => []
  | [a] => [b64Char (a / 4), b64Char ((a % 4) * 16), '=', '=']
  | [a, b] => [b64Char (a / 4), b64Char ((a % 4) * 16 + b / 16), b64Char ((b % 16) * 4), '=']
  | a :: b :: c :: rest =>
      b64Char (a / 4) :: b64Char ((a % 4) * 16 + b / 16) ::
        b64Char ((b % 16) * 4 + c / 64) :: b64Char (c % 64) :: base64Encode rest

def b64CharVal (c : Char) : Option Nat :=
  let n := c.toNat
  if 65 ≤ n ∧ n ≤ 90 then some (n - 65)
  else if 97 ≤ n ∧ n ≤ 122 then some (n - 97 + 26)
  else if 48 ≤ n ∧ n ≤ 57 then some (n - 48 + 52)
  else if n = 43 then some 62
  else if n = 47 then some 63
  else none

def base64DecodeGroups : List Char → Option (List Nat)
  | [] => some []
  | [c1, c2, '=', '='] =>
      match b64CharVal c1, b64CharVal c2 with
      | some v1, some v2 => if v2 % 16 = 0 then some [v1 * 4 + v2 / 16] else none
      | _, _ => none
  | [c1, c2, c3, '='] =>
      match b64CharVal c1, b64CharVal c2, b64CharVal c3 with
      | some v1, some v2, some v3 =>
          if v3 % 4 = 0 then some [v1 * 4 + v2 / 16, (v2 % 16) * 16 + v3 / 4] else none
      | _, _, _ => none
  | c1 :: c2 :: c3 :: c4 :: rest =>
      match b64CharVal c1, b64CharVal c2, b64CharVal c3, b64CharVal c4 with
      | some v1, some v2, some v3, some v4 =>
          match base64DecodeGroups rest with
          | some bs => some ((v1 * 4 + v2 / 16) :: ((v2 % 16) * 16 + v3 / 4) :: ((v3 % 4) * 64 + v4) :: bs)
          | none => none
      | _, _, _, _ => none
  | _ => none

/-- Python `base64.b64decode` with the default `validate=False` first discards
characters outside the alphabet, then decodes 4-character groups. -/
def base64Decode (cs : List Char) : Option (List Nat) :=
  base64DecodeGroups (cs.filter (fun ch => (b64CharVal ch).isSome || ch == '='))

/-! ## Workspace operations (workspace_service.py) -/

structure Entry where
  name : String
  path : String
  type : String
  size : Option Nat
deriving DecidableEq

structure ListResult where
  path : String
  entries : List Entry
  doesExist : Bool
deriving DecidableEq

structure ReadResult where
  path : String
  content : String
  encoding : String
  size : Nat
deriving DecidableEq

structure WriteResult where
  path : String
  success : Bool
  size : Nat
deriving DecidableEq

def joinSlash : List String → String
  | [] => ""
  | [s] => s
  | s :: rest => s ++ "/" ++ joinSlash rest

/-- `"/" + str(item.relative_to(self.workspace_path))`. -/
def relPathStr (ws p : List String) : String :=
  "/" ++ joinSlash (p.drop ws.length)

def childName (parent child : List String) : Option String :=
  if child.length = parent.length + 1 && parent.isPrefixOf child then
    child.getLast?
  else none

/-- Children of `resolved` as directory entries.  The runtime's listing order
is abstracted to store order (files then directories). -/
def dirEntries (fs : FS) (ws resolved : List String) : List Entry :=
  (fs.files.filterMap (fun e =>
    match childName resolved e.fst with
    | some nm => some { name := nm, path := relPathStr ws e.fst, type := "file", size := some e.snd.length }
    | none => none)) ++
  (fs.dirs.filterMap (fun d =>
    match childName resolved d with
    | some nm => some { name := nm, path := relPathStr ws d, type := "directory", size := none }
    | none => none))

/-- `WorkspaceService.list_directory` (lines 83-140).  Returns the updated
filesystem, the trace of filesystem calls, and the result. -/
def listDirectory (sessionId : String) (fs : FS) (path : String) :
    FS × List FsOp × Except WsError ListResult :=
  let ws := workspacePath sessionId
  let (fs1, ops1) := ensureWorkspaceExists ws fs
  match resolvePath ws path with
  | Except.error e => (fs1, ops1, Except.error e)
  | Except.ok resolved =>
      match fs1.lookupFile resolved with
      | some _ => (fs1, ops1 ++ [FsOp.statp resolved], Except.error WsError.validationError)
      | none =>
          if fs1.isDir resolved then
            (fs1, ops1 ++ [FsOp.statp resolved, FsOp.readdir resolved],
              Except.ok { path := path, entries := dirEntries fs1 ws resolved, doesExist := true })
          else
            (fs1, ops1 ++ [FsOp.statp resolved],
              Except.ok { path := path, entries := [], doesExist := false })

/-- `WorkspaceService.read_file` (lines 142-186): UTF-8 decode first, falling
back to base64 of the raw bytes. -/
def readFile (sessionId : String) (fs : FS) (path : String) :
    FS × List FsOp × Except WsError ReadResult :=
  let ws := workspacePath sessionId
  let (fs1, ops1) := ensureWorkspaceExists ws fs
  match resolvePath ws path with
  | Except.error e => (fs1, ops1, Except.error e)
  | Except.ok resolved =>
      match fs1.lookupFile resolved with
      | none =>
          if fs1.isDir resolved then
            (fs1, ops1 ++ [FsOp.statp resolved], Except.error WsError.validationError)
          else
            (fs1, ops1 ++ [FsOp.statp resolved], Except.error WsError.notFound)
      | some bytes =>
          let contentEnc :=
            match utf8Decode bytes with
            | some cs => (String.mk cs, "utf-8")
            | none => (String.mk (base64Encode bytes), "base64")
          (fs1, ops1 ++ [FsOp.statp resolved, FsOp.readBytes resolved],
            Except.ok { path := path, content := contentEnc.fst, encoding := contentEnc.snd,
                        size := bytes.length })

/-- `WorkspaceService.write_file` (lines 188-227): create parent directories,
then write UTF-8 text, or base64-decoded bytes when `encoding == "base64"`. -/
def writeFile (sessionId : String) (fs : FS) (path content encoding : String) :
    FS × List FsOp × Except WsError WriteResult :=
  let ws := workspacePath sessionId
  let (fs1, ops1) := ensureWorkspaceExists ws fs
  match resolvePath ws path with
  | Except.error e => (fs1, ops1, Except.error e)
  | Except.ok resolved =>
      let fs2 := fs1.addDir resolved.dropLast
      let ops2 := ops1 ++ [FsOp.mkdirp resolved.dropLast]
      if encoding == "base64" then
        match base64Decode content.data with
        | some bytes =>
            (fs2.setFile resolved bytes, ops2 ++ [FsOp.writeBytes resolved],
              Except.ok { path := path, success := true, size := bytes.length })
        | none => (fs2, ops2, Except.error WsError.other)
      else
        let bytes := utf8Encode content.data
        (fs2.setFile resolved bytes, ops2 ++ [FsOp.writeBytes resolved],
          Except.ok { path := path, success := true, size := bytes.length })

/-! ## Session model (app/core/models.py `Session` row, fields used by the
orchestration code; timestamps are abstract naturals) -/

structure SessionRec where
  session_id : String
  user_id : String
  agent_id : Option Nat
  status : String
  container_id : Option String
  container_status : Option String
  base_url : Option String
  opencode_session_id : Option String
  last_activity : Option Nat
  updated_at : Nat
deriving DecidableEq

/-- `SessionStatus` constants (session_cleanup_worker.py lines 19-26). -/
def SessionStatus.PENDING : String := "pending"

def SessionStatus.RUNNING : String := "running"

def SessionStatus.PAUSED : String := "paused"

def SessionStatus.ERROR : String := "error"

def SessionStatus.TERMINATED : String := "terminated"

def SessionStatus.TIMEOUT : String := "timeout"

/-! ## session_ops.py updates -/

/-- `update_session_container` (session_ops.py lines 70-89): sets
`container_id`, `container_status`, `updated_at` and optionally
`opencode_session_id`; `status` and `base_url` are not touched. -/
def update_session_container (now : Nat) (container_id : String) (status : String)
    (opencode_session_id : Option String) (s : SessionRec) : SessionRec :=
  let s1 := { s with container_id := some container_id,
                     container_status := some status, updated_at := now }
  match opencode_session_id with
  | some oc => { s1 with opencode_session_id := some oc }
  | none => s1

/-- `stop_session_container` (session_ops.py lines 91-104): sets
`container_status = "stopped"`, `container_id = None`, `updated_at`;
`status` and `base_url` are not touched. -/
def stop_session_container (now : Nat) (s : SessionRec) : SessionRec :=
  { s with container_status := some ("stopped"), container_id := none, updated_at := now }

/-! ## Idle reaper (SessionCleanupWorker, session_cleanup_worker.py) -/

/-- The record update performed by `_cleanup_single_session` (lines 153-157):
`status = TIMEOUT`, `container_id = None`, `container_status = None`,
`updated_at = now` — `base_url` is not cleared. -/
def mark_timeout_update (now : Nat) (s : SessionRec) : SessionRec :=
  { s with status := SessionStatus.TIMEOUT, container_id := none,
           container_status := none, updated_at := now }

/-- The candidate query of `cleanup_idle_sessions` (lines 96-100):
`status == RUNNING AND last_activity < threshold`.  A SQL comparison with a
NULL `last_activity` is not satisfied, hence `none ↦ false`. -/
def isIdleCandidate (threshold : Nat) (s : SessionRec) : Bool :=
  s.status == SessionStatus.RUNNING &&
    match s.last_activity with
    | some t => decide (t < threshold)
    | none => false

/-- `_cleanup_single_session` (lines 118-173) for one candidate.  `stop_ok`
is whether stopping the container succeeds (a failure is caught and logged,
lines 147-151, and does not change the subsequent update); `commit_ok` is
whether the DB commit succeeds (on failure the transaction is rolled back,
line 169, leaving the row unchanged).  The enclosing try/except catches every
exception, so the function never propagates an error. -/
def cleanup_single_session (stop_ok commit_ok : Bool) (now : Nat) (s : SessionRec) :
    Except String SessionRec :=
  if commit_ok then Except.ok (mark_timeout_update now s)
  else Except.ok s

/-- The `for session in idle_sessions` loop of `cleanup_idle_sessions`
(lines 108-109) with Python semantics: an error escaping one iteration would
abort the remaining iterations. -/
def cleanup_sessions_loop (stop_ok commit_ok : String → Bool) (now threshold : Nat) :
    List SessionRec → Except String (List SessionRec)
  | [] => Except.ok []
  | s :: rest =>
    if isIdleCandidate threshold s then
      match cleanup_single_session (stop_ok s.session_id) (commit_ok s.session_id) now s with
      | Except.error e => Except.error e
      | Except.ok s1 =>
          match cleanup_sessions_loop stop_ok commit_ok now threshold rest with
          | Except.error e => Except.error e
          | Except.ok rest1 => Except.ok (s1 :: rest1)
    else
      match cleanup_sessions_loop stop_ok commit_ok now threshold rest with
      | Except.error e => Except.error e
      | Except.ok rest1 => Except.ok (s :: rest1)

/-- `cleanup_idle_sessions` (lines 84-116): one reaper tick at time `now` with
`idle_timeout` (the threshold is `now - idle_timeout`). -/
def cleanup_idle_sessions (stop_ok commit_ok : String → Bool) (now idle_timeout : Nat)
    (sessions : List SessionRec) : Except String (List SessionRec) :=
  cleanup_sessions_loop stop_ok commit_ok now (now - idle_timeout) sessions

/-- The effect of one tick on one session row (used to state that the loop
processes every row independently of failures elsewhere). -/
def reaperStep (stop_ok commit_ok : String → Bool) (now threshold : Nat)
    (s : SessionRec) : SessionRec :=
  if isIdleCandidate threshold s then
    match cleanup_single_session (stop_ok s.session_id) (commit_ok s.session_id) now s with
    | Except.ok s1 => s1
    | Except.error _ => s
  else s

/-- A sequence of reaper ticks at the given times. -/
def run_ticks (stop_ok commit_ok : String → Bool) (idle_timeout : Nat) :
    List Nat → List SessionRec → Except String (List SessionRec)
  | [], sessions => Except.ok sessions
  | tm :: times, sessions =>
    match cleanup_idle_sessions stop_ok commit_ok tm idle_timeout sessions with
    | Except.error e => Except.error e
    | Except.ok sessions1 => run_ticks stop_ok commit_ok idle_timeout times sessions1

/-! ## Recovery (SessionRecoveryManager, session_cleanup_worker.py lines 214-382) -/

/-- Result of `_create_session_container`: the container info dict
(`container_id`, `container_status` with default `"running"`, `base_url`). -/
structure ContainerInfo where
  container_id : String
  container_status : String
  base_url : Option String
deriving DecidableEq

/-- `_recover_session` (lines 276-330).  `agent_token` is the agent row lookup
(`None` means agent not found, line 295-298); `provision` is the outcome of the
`_create_session_container` call.  On any failure the transaction is rolled
back (line 325) — the row is left unchanged, `status` is never set to `ERROR`
— and the error is re-raised (line 330); a success commits the new container
info with `status = RUNNING` and a fresh `last_activity`. -/
def recover_session (agent_token : Option String) (provision : Except String ContainerInfo)
    (now : Nat) (s : SessionRec) : SessionRec × Except String Unit :=
  match agent_token with
  | none => (s, Except.error ("Agent not found"))
  | some _ =>
    match provision with
    | Except.error e => (s, Except.error e)
    | Except.ok info =>
        ({ s with container_id := some info.container_id,
                  container_status := some info.container_status,
                  base_url := info.base_url,
                  status := SessionStatus.RUNNING,
                  updated_at := now,
                  last_activity := some now }, Except.ok ())

/-- `get_or_recover_session` (lines 235-274).  The store is the sessions
table; the query filters on `session_id == sid AND user_id == uid` in one
shot, so an owner mismatch and an absent session produce the same
`ValueError("Session ... not found")`.  The boolean in the result records
whether a recovery was committed (`false` on the non-TIMEOUT fast path). -/
def get_or_recover_session (store : List SessionRec) (sid uid : String)
    (agent_token : Option String) (provision : Except String ContainerInfo) (now : Nat) :
    Except String (SessionRec × Bool) :=
  match store.find? (fun s => s.session_id == sid && s.user_id == uid) with
  | none => Except.error ("Session " ++ sid ++ " not found")
  | some s =>
    if s.status == SessionStatus.TIMEOUT then
      match recover_session agent_token provision now s with
      | (s1, Except.ok _) => Except.ok (s1, true)
      | (_, Except.error e) => Except.error e
    else Except.ok (s, false)

/-! ## Concurrent recovery (claim C3)

`get_or_recover_session` takes no lock: the status check (line 262) and the
provision-and-commit (lines 302-316) of two concurrent callers can interleave
freely.  Each caller is a two-phase program over the shared session row;
provisioning is counted, and each provisioning yields a fresh container id.
Treating provision-and-commit as one atomic step is generous to the code —
even so the status checks can race. -/

structure RecState where
  status : String
  container_id : Option String
  provision_count : Nat
deriving DecidableEq

inductive CallerPhase where
  | start
  | provisioning
  | finished (observed : Option String)
deriving DecidableEq

def freshContainerId (n : Nat) : String := "c" ++ toString n

def callerStep (st : RecState) (ph : CallerPhase) : RecState × CallerPhase :=
  match ph with
  | CallerPhase.start =>
      if st.status == SessionStatus.TIMEOUT then (st, CallerPhase.provisioning)
      else (st, CallerPhase.finished st.container_id)
  | CallerPhase.provisioning =>
      let cid := freshContainerId st.provision_count
      ({ status := SessionStatus.RUNNING, container_id := some cid,
         provision_count := st.provision_count + 1 },
       CallerPhase.finished (some cid))
  | CallerPhase.finished o => (st, CallerPhase.finished o)

structure ConcState where
  shared : RecState
  callers : List CallerPhase
deriving DecidableEq

def schedStep (cs : ConcState) (i : Nat) : ConcState :=
  match cs.callers[i]? with
  | none => cs
  | some ph =>
      let step := callerStep cs.shared ph
      { shared := step.fst, callers := cs.callers.set i step.snd }

def runSched (cs : ConcState) : List Nat → ConcState
  | [] => cs
  | i :: rest => runSched (schedStep cs i) rest

/-- Two callers arriving at the same TIMEOUT session. -/
def recInit : ConcState :=
  { shared := { status := SessionStatus.TIMEOUT, container_id := none, provision_count := 0 },
    callers := [CallerPhase.start, CallerPhase.start] }

/-! ## Container stop paths (claim C7)

Modelled from the spec: the `DockerOps` class imported by
session_cleanup_worker.py (its `stop_container(container_id, timeout)` and
`kill_container(container_id)` methods) is not present under the sources —
docker_ops.py defines only free functions.  Per the spec's container-runtime
interface (section 6), `stop(id, timeout)` and `kill(id)` are single runtime
calls distinct from `remove(id)`; success of each call is an oracle. -/

inductive RtOp where
  | stop (cid : String) (timeout : Nat)
  | kill (cid : String)
  | remove (cid : String)
  | getContainer (cid : String)
deriving DecidableEq

/-- `SessionCleanupWorker._stop_container_safely` (lines 175-195): graceful
stop with a 10 s timeout; on failure a forced kill; only a failure of the
kill as well propagates.  No removal is performed. -/
def stop_container_safely (stop_ok kill_ok : Bool) (cid : String) :
    List RtOp × Except String Unit :=
  if stop_ok then ([RtOp.stop cid 10], Except.ok ())
  else if kill_ok then ([RtOp.stop cid 10, RtOp.kill cid], Except.ok ())
  else ([RtOp.stop cid 10, RtOp.kill cid], Except.error ("force stop failed"))

/-- `cleanup_container` (docker_ops.py lines 101-109): get the container,
`stop(timeout=10)`, then `remove()`, the whole body in one try/except that
prints and swallows every failure (so a stop failure skips the remove and a
remove failure is non-fatal); there is no kill escalation here. -/
def cleanup_container (get_ok stop_ok remove_ok : Bool) (cid : String) :
    List RtOp × Except String Unit :=
  if !get_ok then ([RtOp.getContainer cid], Except.ok ())
  else if !stop_ok then ([RtOp.getContainer cid, RtOp.stop cid 10], Except.ok ())
  else ([RtOp.getContainer cid, RtOp.stop cid 10, RtOp.remove cid], Except.ok ())

/-! ## Concrete sessions used by counterexamples and witnesses -/

def sRunning : SessionRec :=
  { session_id := "s1", user_id := "alice", agent_id := some 1,
    status := SessionStatus.RUNNING, container_id := some ("c1"),
    container_status := some ("running"), base_url := some ("http://agent-s1:4096"),
    opencode_session_id := none, last_activity := some 10, updated_at := 10 }

def sTimeout : SessionRec :=
  { sRunning with status := SessionStatus.TIMEOUT, container_id := none,
                  container_status := none }

def sActive : SessionRec :=
  { session_id := "s2", user_id := "alice", agent_id := none,
    status := "active", container_id := none, container_status := none,
    base_url := none, opencode_session_id := none, last_activity := none,
    updated_at := 0 }

def sNoActivity : SessionRec :=
  { sRunning with last_activity := none }

def rsRunning : RecState :=
  { status := SessionStatus.RUNNING, container_id := some ("c9"), provision_count := 3 }

/-- The spec's session invariant (claim C2): `container_ref != null` iff
`status == RUNNING`. -/
def running_iff_container (s : SessionRec) : Prop :=
  s.status = SessionStatus.RUNNING ↔ s.container_id ≠ none

instance (s : SessionRec) : Decidable (running_iff_container s) :=
  inferInstanceAs (Decidable ((s.status = SessionStatus.RUNNING) ↔ s.container_id ≠ none))

/-! # Theorems -/

/-! ## UTF-8 codec lemmas -/

theorem utf8Decode_encodeChar (c : Char) (l : List Nat) :
    utf8DecodeAux none (utf8EncodeChar c.toNat ++ l) =
      (utf8DecodeAux none l).map (fun cs => c :: cs) := by
  have hval : c.toNat < 55296 ∨ 57344 ≤ c.toNat ∧ c.toNat < 1114112 := c.valid
  have hmax : c.toNat < 1114112 := by rcases hval with h | h <;> omega
  by_cases h1 : c.toNat < 128
  · rw [utf8EncodeChar, if_pos h1, List.cons_append, List.nil_append, utf8DecodeAux,
      if_pos h1, Char.ofNat_toNat]
  · by_cases h2 : c.toNat < 2048
    · rw [utf8EncodeChar, if_neg h1, if_pos h2]
      simp only [List.cons_append, List.nil_append]
      rw [utf8DecodeAux, if_neg (by omega), if_neg (by omega), if_pos (by omega)]
      rw [utf8DecodeAux, if_pos (by omega)]
      simp only
      rw [if_pos (by omega)]
      have harith : (192 + c.toNat / 64 - 192) * 64 + (128 + c.toNat % 64 - 128) = c.toNat := by
        omega
      rw [harith, if_pos (by rcases hval with h | h <;> omega), Char.ofNat_toNat]
    · by_cases h3 : c.toNat < 65536
      · rw [utf8EncodeChar, if_neg h1, if_neg h2, if_pos h3]
        simp only [List.cons_append, List.nil_append]
        rw [utf8DecodeAux, if_neg (by omega), if_neg (by omega), if_neg (by omega),
          if_pos (by omega)]
        rw [utf8DecodeAux, if_pos (by omega)]
        simp only
        rw [if_neg (by omega)]
        rw [utf8DecodeAux, if_pos (by omega)]
        simp only
        rw [if_pos (by omega)]
        have harith : ((224 + c.toNat / 4096 - 224) * 64 + (128 + c.toNat / 64 % 64 - 128)) * 64 +
            (128 + c.toNat % 64 - 128) = c.toNat := by omega
        rw [harith, if_pos (by rcases hval with h | h <;> omega), Char.ofNat_toNat]
      · rw [utf8EncodeChar, if_neg h1, if_neg h2, if_neg h3]
        simp only [List.cons_append, List.nil_append]
        rw [utf8DecodeAux, if_neg (by omega), if_neg (by omega), if_neg (by omega),
          if_neg (by omega), if_pos (by omega)]
        rw [utf8DecodeAux, if_pos (by omega)]
        simp only
        rw [if_neg (by omega)]
        rw [utf8DecodeAux, if_pos (by omega)]
        simp only
        rw [if_neg (by omega)]
        rw [utf8DecodeAux, if_pos (by omega)]
        simp only
        rw [if_pos (by omega)]
        have harith : (((240 + c.toNat / 262144 - 240) * 64 + (128 + c.toNat / 4096 % 64 - 128)) * 64 +
            (128 + c.toNat / 64 % 64 - 128)) * 64 + (128 + c.toNat % 64 - 128) = c.toNat := by
          omega
        rw [harith, if_pos (by omega), Char.ofNat_toNat]

/-- Decoding is left inverse to encoding: every text written as UTF-8 reads
back as itself. -/
theorem utf8Decode_utf8Encode (cs : List Char) : utf8Decode (utf8Encode cs) = some cs := by
  induction cs with
  | nil => rfl
  | cons c cs ih =>
      rw [utf8Encode, utf8Decode, utf8Decode_encodeChar c (utf8Encode cs)]
      rw [utf8Decode] at ih
      rw [ih]
      rfl

/-! ## Filesystem store lemmas -/

theorem FS.lookupFile_setFile_self (fs : FS) (p : List String) (bs : List Nat) :
    (fs.setFile p bs).lookupFile p = some bs := by
  simp [FS.setFile, FS.lookupFile, List.lookup]

theorem FS.lookupFile_addDir (fs : FS) (d p : List String) :
    (fs.addDir d).lookupFile p = fs.lookupFile p := by
  rw [FS.addDir]
  split <;> rfl

theorem string_mk_data (s : String) : String.mk s.data = s := rfl

/-! ## Claim C1 -/

/-- C1, counterexample.  The claim states that a rejected path causes zero
filesystem operations, but `list_directory` calls `ensure_workspace_exists`
(a `mkdir`) before the path is resolved: resolving `"../../etc/passwd"` is
rejected with a `ValidationError`, yet the operation trace is nonempty. -/
theorem C1_counterexample :
    (listDirectory ("session1") FS0 ("../../etc/passwd")).2.2 =
      Except.error WsError.validationError ∧
    ¬ (listDirectory ("session1") FS0 ("../../etc/passwd")).2.1 = [] := by
  decide

/-- C1, amended: for every path whose canonicalized join with the workspace
root escapes the root, `list_directory`, `read_file` and `write_file` fail
with a `ValidationError`, and the only filesystem call made before the
rejection is the `mkdir` of the workspace root itself performed by
`ensure_workspace_exists` — no filesystem operation ever touches the
rejected path or anything outside the workspace root. -/
theorem C1_amended (sessionId path : String) (fs : FS)
    (h : resolvePath (workspacePath sessionId) path = Except.error WsError.validationError) :
    ((listDirectory sessionId fs path).2.2 = Except.error WsError.validationError ∧
     (listDirectory sessionId fs path).2.1 = [FsOp.mkdirp (workspacePath sessionId)]) ∧
    ((readFile sessionId fs path).2.2 = Except.error WsError.validationError ∧
     (readFile sessionId fs path).2.1 = [FsOp.mkdirp (workspacePath sessionId)]) ∧
    ((writeFile sessionId fs path ("x") ("utf-8")).2.2 = Except.error WsError.validationError ∧
     (writeFile sessionId fs path ("x") ("utf-8")).2.1 = [FsOp.mkdirp (workspacePath sessionId)]) := by
  simp [listDirectory, readFile, writeFile, ensureWorkspaceExists, h]

/-- C1, witness for `C1_amended` at the concrete escaping path. -/
theorem C1_amended_witness :
    (listDirectory ("session1") FS0 ("../../etc/passwd")).2.2 =
      Except.error WsError.validationError ∧
    (listDirectory ("session1") FS0 ("../../etc/passwd")).2.1 =
      [FsOp.mkdirp (workspacePath ("session1"))] :=
  (C1_amended ("session1") ("../../etc/passwd") FS0 (by decide)).1

/-! ## Claim C8 -/

/-- C8: writing UTF-8 text and reading the same path returns exactly the
written content with `encoding = "utf-8"` and `size` its UTF-8 byte length;
reading a file whose bytes are not valid UTF-8 returns the base64 encoding
of the bytes with `encoding = "base64"`. -/
theorem C8_write_read (sessionId path content : String) (fs : FS) (rp : List String)
    (hres : resolvePath (workspacePath sessionId) path = Except.ok rp) :
    ((readFile sessionId (writeFile sessionId fs path content ("utf-8")).1 path).2.2 =
      Except.ok { path := path, content := content, encoding := "utf-8",
                  size := (utf8Encode content.data).length }) ∧
    (∀ bytes : List Nat, utf8Decode bytes = none →
      (readFile sessionId (FS.setFile fs rp bytes) path).2.2 =
        Except.ok { path := path, content := String.mk (base64Encode bytes),
                    encoding := "base64", size := bytes.length }) := by
  constructor
  · simp [writeFile, readFile, ensureWorkspaceExists, hres, FS.lookupFile_addDir,
      FS.lookupFile_setFile_self, utf8Decode_utf8Encode, string_mk_data]
  · intro bytes hb
    simp [readFile, ensureWorkspaceExists, hres, FS.lookupFile_addDir,
      FS.lookupFile_setFile_self, hb]

/-- C8, witness: writing `"buy milk"` to `/notes/todo.md` then reading it
yields content `"buy milk"`, encoding `utf-8` and size 8; reading a file
holding the single byte 255 yields its base64 encoding. -/
theorem C8_write_read_witness :
    (utf8Encode ("buy milk").data).length = 8 ∧
    (readFile ("s1") (writeFile ("s1") FS0 ("/notes/todo.md") ("buy milk") ("utf-8")).1
        ("/notes/todo.md")).2.2 =
      Except.ok { path := "/notes/todo.md", content := "buy milk", encoding := "utf-8",
                  size := (utf8Encode ("buy milk").data).length } ∧
    (readFile ("s1") (FS.setFile FS0 (workspacePath ("s1") ++ ["notes", "todo.md"]) [255])
        ("/notes/todo.md")).2.2 =
      Except.ok { path := "/notes/todo.md", content := String.mk (base64Encode [255]),
                  encoding := "base64", size := 1 } :=
  ⟨by decide,
   (C8_write_read ("s1") ("/notes/todo.md") ("buy milk") FS0
      (workspacePath ("s1") ++ ["notes", "todo.md"]) (by decide)).1,
   (C8_write_read ("s1") ("/notes/todo.md") ("buy milk") FS0
      (workspacePath ("s1") ++ ["notes", "todo.md"]) (by decide)).2 [255] (by decide)⟩

/-! ## Claim C10 -/

/-- C10, counterexample.  The claim says every input path beginning with a
slash has exactly one leading slash stripped and the remainder treated as
relative to the workspace root.  For `"//etc/passwd"` the remainder
`"/etc/passwd"` is itself absolute, so the `pathlib` join replaces the
workspace root and the escape check rejects it — while the claim's reading
would have resolved it inside the sandbox. -/
theorem C10_counterexample :
    claimResolveC10 (workspacePath ("s1")) ("//etc/passwd") =
      Except.ok (workspacePath ("s1") ++ ["etc", "passwd"]) ∧
    resolvePath (workspacePath ("s1")) ("//etc/passwd") =
      Except.error WsError.validationError ∧
    isAbsStr ("//etc/passwd") = true := by
  decide

/-- C10, amended: for an input path beginning with `/` whose remainder after
stripping that one slash is not itself absolute, resolution treats the
remainder as relative to the workspace root (it agrees with the claim's
reading), and in particular `"/etc/passwd"` is not rejected: it resolves to
`<workspace_root>/etc/passwd` inside the sandbox.  A remainder that still
begins with `/` instead replaces the root under `pathlib` join semantics and
is rejected by the escape check. -/
theorem C10_amended (sessionId p : String) (h1 : isAbsStr p = true)
    (h2 : isAbsStr (stripLeadingSlash p) = false) :
    resolvePath (workspacePath sessionId) p = claimResolveC10 (workspacePath sessionId) p ∧
    resolvePath (workspacePath ("s1")) ("/etc/passwd") =
      Except.ok (workspacePath ("s1") ++ ["etc", "passwd"]) := by
  constructor
  · simp [resolvePath, claimResolveC10, joinSegs, h2]
  · decide

/-- C10, witness for `C10_amended` at `"/etc/passwd"`. -/
theorem C10_amended_witness :
    resolvePath (workspacePath ("sx")) ("/etc/passwd") =
      claimResolveC10 (workspacePath ("sx")) ("/etc/passwd") :=
  (C10_amended ("sx") ("/etc/passwd") (by decide) (by decide)).1

/-! ## Claim C2 -/

/-- C2, counterexample.  The claim asserts `status == RUNNING` iff
`container_ref != null`, with any transition out of RUNNING nulling both
`container_ref` and `base_url` in the same update.  On a RUNNING session
satisfying the invariant, `stop_session_container` nulls `container_id`
without changing `status` (breaking the invariant), the reaper's timeout
update leaves `base_url` set, and `update_session_container` on a fresh
`"active"` session sets `container_id` without setting `status` to RUNNING
(breaking the invariant in the other direction). -/
theorem C2_counterexample :
    running_iff_container sRunning ∧
    ¬ running_iff_container (stop_session_container 11 sRunning) ∧
    (mark_timeout_update 11 sRunning).base_url = some ("http://agent-s1:4096") ∧
    running_iff_container sActive ∧
    ¬ running_iff_container (update_session_container 5 ("c9") ("running") none sActive) := by
  decide

/-- C2, amended: the idle reaper's transition out of RUNNING sets
`status = TIMEOUT` and nulls `container_id` and `container_status` in the
same update but leaves `base_url` untouched; the stop path nulls
`container_id` without changing `status`; and `update_session_container`
sets `container_id` without changing `status` — so the RUNNING-iff-container
invariant is not maintained by these operations. -/
theorem C2_amended (now : Nat) (s : SessionRec) :
    ((mark_timeout_update now s).status = SessionStatus.TIMEOUT ∧
     (mark_timeout_update now s).container_id = none ∧
     (mark_timeout_update now s).container_status = none ∧
     (mark_timeout_update now s).base_url = s.base_url) ∧
    ((stop_session_container now s).container_id = none ∧
     (stop_session_container now s).status = s.status ∧
     (stop_session_container now s).base_url = s.base_url) ∧
    (∀ (cid st : String) (oc : Option String),
      (update_session_container now cid st oc s).status = s.status ∧
      (update_session_container now cid st oc s).container_id = some cid) := by
  refine ⟨⟨rfl, rfl, rfl, rfl⟩, ⟨rfl, rfl, rfl⟩, ?_⟩
  intro cid st oc
  cases oc <;> exact ⟨rfl, rfl⟩

/-! ## Claim C3 -/

/-- C3, counterexample.  Two concurrent `ensure_running` callers on the same
TIMEOUT session, interleaved so that both status checks precede the first
commit, trigger two provisioning calls and observe two different container
refs — the claimed single-flight guarantee does not hold (no lock is taken
in `get_or_recover_session`). -/
theorem C3_counterexample :
    (runSched recInit [0, 1, 0, 1]).shared.provision_count = 2 ∧
    (runSched recInit [0, 1, 0, 1]).callers =
      [CallerPhase.finished (some ("c0")), CallerPhase.finished (some ("c1"))] := by
  decide

/-- C3, amended: recovery is not single-flight — every caller whose status
check precedes the first commit provisions independently (see
`C3_counterexample`); only when callers are serialized does exactly one
provisioning call occur, with every later caller observing RUNNING and the
first caller's `container_ref` without provisioning. -/
theorem C3_amended :
    ((runSched recInit [0, 0, 1, 1]).shared.provision_count = 1 ∧
     (runSched recInit [0, 0, 1, 1]).callers =
       [CallerPhase.finished (some ("c0")), CallerPhase.finished (some ("c0"))]) ∧
    (∀ st : RecState, st.status = SessionStatus.RUNNING →
      callerStep st CallerPhase.start = (st, CallerPhase.finished st.container_id)) := by
  refine ⟨by decide, ?_⟩
  intro st h
  simp [callerStep, h, SessionStatus.RUNNING, SessionStatus.TIMEOUT]

/-- C3, witness for `C3_amended`: a caller arriving at a RUNNING session
observes the existing container ref without provisioning. -/
theorem C3_amended_witness :
    callerStep rsRunning CallerPhase.start =
      (rsRunning, CallerPhase.finished rsRunning.container_id) :=
  C3_amended.2 rsRunning rfl

/-! ## Claim C4 -/

/-- C4, counterexample.  On provisioning failure `_recover_session` rolls the
transaction back and re-raises: the session's status stays TIMEOUT — it is
not set to ERROR as the claim states. -/
theorem C4_counterexample :
    (recover_session (some ("tok")) (Except.error ("provision failed")) 20 sTimeout).1.status =
      SessionStatus.TIMEOUT ∧
    ¬ (recover_session (some ("tok")) (Except.error ("provision failed")) 20 sTimeout).1.status =
      SessionStatus.ERROR ∧
    (recover_session (some ("tok")) (Except.error ("provision failed")) 20 sTimeout).2 =
      Except.error ("provision failed") := by
  decide

/-- C4, amended: on provisioning failure, recovery rolls back leaving the
session record unchanged (status remains TIMEOUT, not ERROR) and propagates
the error to the caller without retrying (a single provisioning attempt is
made). -/
theorem C4_amended (tok e : String) (now : Nat) (s : SessionRec) :
    recover_session (some tok) (Except.error e) now s = (s, Except.error e) :=
  rfl

/-! ## Claim C5 -/

/-- C5, counterexample.  `get_or_recover_session` filters on
`session_id == sid AND user_id == uid` in one query: a session that exists
(`sRunning` has `session_id = "s1"`) but is owned by `"alice"` produces,
for requester `"bob"`, exactly the same `"Session s1 not found"` error as a
session that does not exist at all — there is no distinct Forbidden error. -/
theorem C5_counterexample :
    get_or_recover_session [sRunning] ("s1") ("bob") none (Except.error ("e")) 0 =
      Except.error ("Session s1 not found") ∧
    get_or_recover_session [] ("s1") ("bob") none (Except.error ("e")) 0 =
      Except.error ("Session s1 not found") ∧
    sRunning.session_id = "s1" ∧
    ¬ sRunning.user_id = "bob" := by
  decide

/-- C5, amended: `ensure_running` fails with the same not-found error both
when the session is absent and when the owner mismatches (the query filters
on both fields at once, so the two cases are indistinguishable); when the
session is found with any status other than TIMEOUT it is returned unchanged
and no provisioning occurs. -/
theorem C5_amended (store : List SessionRec) (sid uid : String) (tok : Option String)
    (prov : Except String ContainerInfo) (now : Nat) :
    (store.find? (fun s => s.session_id == sid && s.user_id == uid) = none →
      get_or_recover_session store sid uid tok prov now =
        Except.error ("Session " ++ sid ++ " not found")) ∧
    (∀ s : SessionRec, store.find? (fun s => s.session_id == sid && s.user_id == uid) = some s →
      ¬ s.status = SessionStatus.TIMEOUT →
      get_or_recover_session store sid uid tok prov now = Except.ok (s, false)) := by
  constructor
  · intro h
    simp [get_or_recover_session, h]
  · intro s hfind hstat
    simp [get_or_recover_session, hfind, hstat]

/-- C5, witness for `C5_amended`: absent session gives the not-found error;
a found non-TIMEOUT session is returned unchanged without provisioning. -/
theorem C5_amended_witness :
    get_or_recover_session [] ("s1") ("alice") none (Except.error ("e")) 0 =
      Except.error ("Session s1 not found") ∧
    get_or_recover_session [sRunning] ("s1") ("alice") none (Except.error ("e")) 0 =
      Except.ok (sRunning, false) :=
  ⟨(C5_amended [] ("s1") ("alice") none (Except.error ("e")) 0).1 (by decide),
   (C5_amended [sRunning] ("s1") ("alice") none (Except.error ("e")) 0).2 sRunning
     (by decide) (by decide)⟩

/-! ## Claim C7 -/

/-- C7, counterexample.  The reaper's stop path (`_stop_container_safely`)
never removes the container: on a successful graceful stop its runtime trace
is exactly one stop call, with no remove.  The removing path
(`cleanup_container`) never escalates to a kill and swallows a stop failure
instead of surfacing it. -/
theorem C7_counterexample :
    (stop_container_safely true true ("c1")).1 = [RtOp.stop ("c1") 10] ∧
    ¬ RtOp.remove ("c1") ∈ (stop_container_safely true true ("c1")).1 ∧
    ¬ RtOp.kill ("c1") ∈ (cleanup_container true false true ("c1")).1 ∧
    (cleanup_container true false true ("c1")).2 = Except.ok () := by
  decide

/-- C7, amended: `_stop_container_safely` first issues a graceful stop with
a 10-second grace period, escalates to a forced kill exactly when the stop
fails, surfaces a failure only when both paths fail, and never removes the
container; removal happens only in the separate `cleanup_container`, which
stops (grace 10 s) and then removes with no kill escalation and treats every
failure — including a remove failure — as non-fatal. -/
theorem C7_amended (stop_ok kill_ok get_ok remove_ok : Bool) (cid : String) :
    (stop_container_safely stop_ok kill_ok cid).1.head? = some (RtOp.stop cid 10) ∧
    (stop_ok = false → RtOp.kill cid ∈ (stop_container_safely stop_ok kill_ok cid).1) ∧
    ((stop_container_safely stop_ok kill_ok cid).2 = Except.ok () ↔ (stop_ok || kill_ok) = true) ∧
    ¬ RtOp.remove cid ∈ (stop_container_safely stop_ok kill_ok cid).1 ∧
    (cleanup_container get_ok stop_ok remove_ok cid).2 = Except.ok () ∧
    (get_ok = true → stop_ok = true →
      RtOp.remove cid ∈ (cleanup_container get_ok stop_ok remove_ok cid).1) ∧
    ¬ RtOp.kill cid ∈ (cleanup_container get_ok stop_ok remove_ok cid).1 := by
  cases stop_ok <;> cases kill_ok <;> cases get_ok <;> cases remove_ok <;>
    simp [stop_container_safely, cleanup_container]

/-- C7, witness for `C7_amended`: the kill escalation fires when the
graceful stop fails, and the cleanup path reaches the remove call. -/
theorem C7_amended_witness :
    RtOp.kill ("c9") ∈ (stop_container_safely false true ("c9")).1 ∧
    RtOp.remove ("c9") ∈ (cleanup_container true true false ("c9")).1 :=
  ⟨(C7_amended false true true false ("c9")).2.1 rfl,
   (C7_amended true true true false ("c9")).2.2.2.2.2.1 rfl rfl⟩

/-! ## Idle reaper lemmas (claims C6, C9) -/

theorem cleanup_single_session_ok (a b : Bool) (now : Nat) (s : SessionRec) :
    cleanup_single_session a b now s =
      Except.ok (if b then mark_timeout_update now s else s) := by
  cases b <;> rfl

/-- One reaper tick never aborts: whatever the per-session stop and commit
outcomes, the scan processes every session independently and returns the
pointwise result. -/
theorem cleanup_loop_eq_map (sok cok : String → Bool) (now threshold : Nat)
    (sessions : List SessionRec) :
    cleanup_sessions_loop sok cok now threshold sessions =
      Except.ok (sessions.map (reaperStep sok cok now threshold)) := by
  induction sessions with
  | nil => rfl
  | cons s rest ih =>
      simp only [cleanup_sessions_loop, cleanup_single_session_ok, ih, List.map_cons, reaperStep]
      by_cases hc : isIdleCandidate threshold s = true
      · simp [hc]
      · simp [hc]

theorem run_ticks_unchanged (sok cok : String → Bool) (it : Nat) (times : List Nat)
    (s : SessionRec) (h : ∀ tm ∈ times, isIdleCandidate (tm - it) s = false) :
    run_ticks sok cok it times [s] = Except.ok [s] := by
  induction times with
  | nil => rfl
  | cons tm times ih =>
      rw [run_ticks, cleanup_idle_sessions, cleanup_loop_eq_map]
      have hstep : reaperStep sok cok tm (tm - it) s = s := by
        rw [reaperStep, if_neg (by rw [h tm (List.mem_cons_self tm times)]; simp)]
      simp only [List.map_cons, List.map_nil, hstep]
      exact ih (fun x hx => h x (List.mem_cons_of_mem tm hx))

/-! ## Claim C6 -/

/-- C6: (1) a reaper tick processes all sessions independently — a failure
on one candidate never aborts the rest of the scan; (2) a RUNNING session
whose `last_activity` is older than the idle timeout is transitioned by a
single tick to TIMEOUT with a null `container_id`; (3) a RUNNING session
whose `last_activity` is within the idle window at every tick time is left
unchanged by any number of ticks. -/
theorem C6_reaper_tick :
    (∀ (sok cok : String → Bool) (now it : Nat) (sessions : List SessionRec),
        cleanup_idle_sessions sok cok now it sessions =
          Except.ok (sessions.map (reaperStep sok cok now (now - it)))) ∧
    (∀ (sok cok : String → Bool) (now it t : Nat) (s : SessionRec),
        s.status = SessionStatus.RUNNING → s.last_activity = some t → t < now - it →
        cok s.session_id = true →
        cleanup_idle_sessions sok cok now it [s] = Except.ok [mark_timeout_update now s] ∧
        (mark_timeout_update now s).status = SessionStatus.TIMEOUT ∧
        (mark_timeout_update now s).container_id = none) ∧
    (∀ (sok cok : String → Bool) (it : Nat) (times : List Nat) (t : Nat) (s : SessionRec),
        s.status = SessionStatus.RUNNING → s.last_activity = some t →
        (∀ tm ∈ times, ¬ t < tm - it) →
        run_ticks sok cok it times [s] = Except.ok [s]) := by
  refine ⟨?_, ?_, ?_⟩
  · intro sok cok now it sessions
    rw [cleanup_idle_sessions, cleanup_loop_eq_map]
  · intro sok cok now it t s hst hla ht hck
    have hc : isIdleCandidate (now - it) s = true := by
      simp [isIdleCandidate, hst, hla, ht]
    refine ⟨?_, rfl, rfl⟩
    rw [cleanup_idle_sessions, cleanup_loop_eq_map]
    simp [reaperStep, hc, cleanup_single_session_ok, hck]
  · intro sok cok it times t s hst hla h
    exact run_ticks_unchanged sok cok it times s (fun tm hm => by
      simp [isIdleCandidate, hla, h tm hm])

/-- C6, witness for `C6_reaper_tick`: with a 900-unit idle timeout, one tick
at time 1000 reaps a RUNNING session idle since time 10, while ticks at
times 100 and 200 leave it untouched. -/
theorem C6_reaper_tick_witness :
    cleanup_idle_sessions (fun _ => true) (fun _ => true) 1000 900 [sRunning] =
      Except.ok [mark_timeout_update 1000 sRunning] ∧
    run_ticks (fun _ => true) (fun _ => true) 900 [100, 200] [sRunning] = Except.ok [sRunning] :=
  ⟨(C6_reaper_tick.2.1 (fun _ => true) (fun _ => true) 1000 900 10 sRunning rfl rfl (by decide)
      rfl).1,
   C6_reaper_tick.2.2 (fun _ => true) (fun _ => true) 900 [100, 200] 10 sRunning rfl rfl
     (by decide)⟩

/-! ## Claim C9 -/

/-- C9: a RUNNING session whose `last_activity` was never set is never
selected by the idle query (the SQL comparison with NULL is not satisfied),
so any number of reaper ticks leaves it unchanged — it remains RUNNING. -/
theorem C9_null_last_activity (sok cok : String → Bool) (it : Nat) (times : List Nat)
    (s : SessionRec) (hst : s.status = SessionStatus.RUNNING) (hla : s.last_activity = none) :
    (∀ threshold : Nat, isIdleCandidate threshold s = false) ∧
    run_ticks sok cok it times [s] = Except.ok [s] := by
  have hcand : ∀ threshold : Nat, isIdleCandidate threshold s = false := by
    intro th
    simp [isIdleCandidate, hla]
  exact ⟨hcand, run_ticks_unchanged sok cok it times s (fun tm _ => hcand (tm - it))⟩

/-- C9, witness for `C9_null_last_activity` on a concrete RUNNING session
with no recorded activity. -/
theorem C9_null_last_activity_witness :
    isIdleCandidate 500 sNoActivity = false ∧
    run_ticks (fun _ => true) (fun _ => true) 900 [100, 200, 5000] [sNoActivity] =
      Except.ok [sNoActivity] :=
  ⟨(C9_null_last_activity (fun _ => true) (fun _ => true) 900 [100, 200, 5000] sNoActivity rfl
      rfl).1 500,
   (C9_null_last_activity (fun _ => true) (fun _ => true) 900 [100, 200, 5000] sNoActivity rfl
      rfl).2⟩

end Opencode
